import Mathlib

/-!
Shallow embedding of the tlschecker core (`src/lib.rs`).

The library inspects the TLS certificate of a remote host.  We embed the
extraction and validity-calculation pipeline: the TLS session is modelled as
the data OpenSSL hands back (`SslSession`), an ASN.1 time is an instant in
seconds together with its display string, and every Rust `.unwrap()` on an
`Option`/`Result` is modelled as an `Option`-valued computation where `none`
stands for a panic (process abort), which is distinct from returning a
`TLSValidationError` through `Result`.  `Certificate.fromSession` embeds
`Certificate::from` from the session on; its outcome distinguishes a normal
result, an error value, and a panic.  The evaluation instant `now`
(`Asn1Time::days_from_now(0)` in the source) is passed explicitly.
-/

namespace TLSChecker

/-- An ASN.1 time: the instant it denotes (seconds, signed) and the string
`Asn1TimeRef::to_string` renders.  Comparison and `diff` act on the instant. -/
structure Asn1Time where
  secs : Int
  display : String
deriving DecidableEq, Repr

/-- One `X509NameEntryRef`: `data().as_utf8()` yields `some` text, or fails
(`none`) when the entry's bytes are not valid UTF-8 — the source calls
`.unwrap()` on that result. -/
structure X509NameEntry where
  text : Option String
deriving DecidableEq, Repr

/-- One `GeneralNameRef` from the subject-alternative-names extension:
`dnsname()` is `some` of the literal DNS string for a DNS-name entry and
`none` for every other general-name type (IP address, URI, email, ...). -/
structure GeneralName where
  dnsname : Option String
deriving DecidableEq, Repr

/-- An `X509NameRef` restricted to the attribute identifiers the source looks
up: each field is the list returned by `entries_by_nid` for that NID. -/
structure X509Name where
  countryName : List X509NameEntry
  stateOrProvinceName : List X509NameEntry
  localityName : List X509NameEntry
  organizationalUnitName : List X509NameEntry
  organizationName : List X509NameEntry
  commonName : List X509NameEntry
deriving DecidableEq, Repr

/-- The data the source reads off an `X509` certificate.  `serial_number` is
`some` of the decimal rendering when `to_bn()` succeeds (the source unwraps
it); `subject_alt_names` is `none` when the certificate has no SAN
extension. -/
structure X509Cert where
  subject_name : X509Name
  issuer_name : X509Name
  not_before : Asn1Time
  not_after : Asn1Time
  serial_number : Option String
  version : Int
  signature_algorithm : String
  subject_alt_names : Option (List GeneralName)
deriving DecidableEq, Repr

/-- `struct Chain`: the per-certificate chain-link summary. -/
structure Chain where
  subject : String
  issuer : String
  valid_from : String
  valid_to : String
  signature_algorithm : String
deriving DecidableEq, Repr

instance : Inhabited Chain := ⟨⟨"", "", "", "", ""⟩⟩

/-- `struct Issuer`. -/
structure Issuer where
  country_or_region : String
  organization : String
  common_name : String
deriving DecidableEq, Repr

/-- `struct Subject`. -/
structure Subject where
  country_or_region : String
  state_or_province : String
  locality : String
  organization_unit : String
  organization : String
  common_name : String
deriving DecidableEq, Repr

/-- `struct Certificate`: the report returned to the caller. -/
structure Certificate where
  hostname : String
  subject : Subject
  issued : Issuer
  valid_from : String
  valid_to : String
  validity_days : Int
  validity_hours : Int
  is_expired : Bool
  cert_sn : String
  cert_ver : String
  cert_alg : String
  sans : List String
  chain : Option (List Chain)
deriving DecidableEq, Repr

/-- What the established TLS session reports: `ssl.peer_cert_chain()` and
`ssl.peer_certificate()`, each possibly absent. -/
structure SslSession where
  peer_cert_chain : Option (List X509Cert)
  peer_certificate : Option X509Cert
deriving DecidableEq, Repr

/-- Outcome of `Certificate::from` past the handshake: a report, a
`TLSValidationError` carrying its detail string, or a panic (the process
aborts; nothing is returned to the caller). -/
inductive Outcome (α : Type) where
  | ok : α → Outcome α
  | err : String → Outcome α
  | panicked : Outcome α
deriving DecidableEq, Repr

/-- `fn from_entries`: the first entry's text if any entry is present (the
source unwraps the UTF-8 decoding, so an undecodable first entry panics,
modelled as `none`), and the literal sentinel `"None"` when no entry
matches. -/
def from_entries (entries : List X509NameEntry) : Option String :=
  match entries with
  | [] => some "None"
  | e :: _ => e.text

/-- `fn get_subject`: the six attribute lookups on the subject name, in
source order. -/
def get_subject (cert : X509Cert) : Option Subject := do
  let country_or_region ← from_entries cert.subject_name.countryName
  let state_or_province ← from_entries cert.subject_name.stateOrProvinceName
  let locality ← from_entries cert.subject_name.localityName
  let organization_unit ← from_entries cert.subject_name.organizationalUnitName
  let common_name ← from_entries cert.subject_name.commonName
  let organization ← from_entries cert.subject_name.organizationName
  some { country_or_region, state_or_province, locality,
         organization_unit, organization, common_name }

/-- `fn get_issuer`: the three attribute lookups on the issuer name, in
source order. -/
def get_issuer (cert : X509Cert) : Option Issuer := do
  let common_name ← from_entries cert.issuer_name.commonName
  let organization ← from_entries cert.issuer_name.organizationName
  let country_or_region ← from_entries cert.issuer_name.countryName
  some { country_or_region, organization, common_name }

/-- The SAN loop body of `get_certificate_info`: push
`general_name.dnsname().unwrap().to_string()` for each entry, in order.  A
non-DNS entry makes `dnsname()` return `None`, so the `unwrap` panics
(`none`). -/
def collect_sans : List GeneralName → Option (List String)
  | [] => some []
  | g :: gs =>
    match g.dnsname with
    | none => none
    | some s =>
      match collect_sans gs with
      | none => none
      | some rest => some (s :: rest)

/-- The `match cert_ref.subject_alt_names()` wrapper: no SAN extension gives
the empty list, otherwise the loop runs over the entries. -/
def sans_of : Option (List GeneralName) → Option (List String)
  | none => some []
  | some gns => collect_sans gns

/-- `fn get_validity_days`: `Asn1Time::days_from_now(0).diff(not_after).days`.
`ASN1_TIME_diff` expresses `not_after - now` as days and seconds of the same
sign with `|secs| < 86400`, i.e. the day count is the difference in seconds
divided by 86400 truncating toward zero. -/
def get_validity_days (now not_after : Int) : Int :=
  (not_after - now).tdiv 86400

/-- `fn get_validity_in_hours`: `get_validity_days(not_after) * 24`.  On the
ASN.1 time domain (years 0–9999) the day count is below 3 700 000, so the
`i32` multiplication cannot overflow and exact integer arithmetic is
faithful. -/
def get_validity_in_hours (now not_after : Int) : Int :=
  get_validity_days now not_after * 24

/-- `fn has_expired`: `not_after < Asn1Time::days_from_now(0)`, a strict
comparison of instants. -/
def has_expired (now not_after : Int) : Bool :=
  not_after < now

/-- `fn get_certificate_info`: SAN loop first (its `unwrap` can panic), then
the field-by-field construction; `from_entries` inside `get_subject` /
`get_issuer` and the serial's `to_bn().unwrap()` can also panic. -/
def get_certificate_info (now : Int) (cert : X509Cert) : Option Certificate := do
  let sans ← sans_of cert.subject_alt_names
  let subject ← get_subject cert
  let issued ← get_issuer cert
  let cert_sn ← cert.serial_number
  some { hostname := "None"
       , subject := subject
       , issued := issued
       , valid_from := cert.not_before.display
       , valid_to := cert.not_after.display
       , validity_days := get_validity_days now cert.not_after.secs
       , validity_hours := get_validity_in_hours now cert.not_after.secs
       , is_expired := has_expired now cert.not_after.secs
       , cert_sn := cert_sn
       , cert_ver := toString cert.version
       , cert_alg := cert.signature_algorithm
       , sans := sans
       , chain := none }

/-- The closure mapped over `peer_cert_chain()`: build one `Chain` link from
one chain certificate (the two `from_entries` calls can panic). -/
def chain_of_cert (c : X509Cert) : Option Chain := do
  let subject ← from_entries c.subject_name.commonName
  let issuer ← from_entries c.issuer_name.commonName
  some { subject := subject
       , issuer := issuer
       , valid_from := c.not_before.display
       , valid_to := c.not_after.display
       , signature_algorithm := c.signature_algorithm }

/-- The `.iter().map(..).collect::<Vec<Chain>>()` over the peer chain:
left-to-right, aborting (panicking) at the first failing link. -/
def map_chain : List X509Cert → Option (List Chain)
  | [] => some []
  | c :: cs =>
    match chain_of_cert c with
    | none => none
    | some l =>
      match map_chain cs with
      | none => none
      | some ls => some (l :: ls)

/-- `Certificate::from`, from the established session on: retrieve the peer
chain (`.ok_or("Peer certificate chain not found")?`), summarize it, retrieve
the leaf (`.ok_or("Certificate not found")?`), decode it, and assemble the
report with `hostname` set to the caller's host and `chain` set to
`Some(peer_cert_chain)`. -/
def Certificate.fromSession (now : Int) (host : String) (sess : SslSession) :
    Outcome Certificate :=
  match sess.peer_cert_chain with
  | none => .err "Peer certificate chain not found"
  | some chainCerts =>
    match map_chain chainCerts with
    | none => .panicked
    | some peer_cert_chain =>
      match sess.peer_certificate with
      | none => .err "Certificate not found"
      | some x509 =>
        match get_certificate_info now x509 with
        | none => .panicked
        | some data =>
          .ok { data with hostname := host, chain := some peer_cert_chain }

/-! ### Concrete certificates and sessions (used by witnesses and
counterexamples) -/

/-- A general name that is not a DNS name (e.g. an IP-address entry):
`dnsname()` returns `None` on it. -/
def ipGeneralName : GeneralName := ⟨none⟩

/-- An empty `X509Name`: every attribute lookup finds no entry. -/
def emptyName : X509Name := ⟨[], [], [], [], [], []⟩

/-- A well-formed leaf certificate: CN `example.com`, issuer CN `Test CA`,
valid from instant 0 to instant 864000 (ten days later), one DNS SAN. -/
def leafCert : X509Cert :=
  { subject_name := { emptyName with commonName := [⟨some "example.com"⟩] }
  , issuer_name := { emptyName with commonName := [⟨some "Test CA"⟩] }
  , not_before := ⟨0, "Jan  1 00:00:00 2020 GMT"⟩
  , not_after := ⟨864000, "Jan 11 00:00:00 2020 GMT"⟩
  , serial_number := some "12345"
  , version := 2
  , signature_algorithm := "sha256WithRSAEncryption"
  , subject_alt_names := some [⟨some "example.com"⟩] }

/-- A session that presented `leafCert` as leaf and one-element chain. -/
def sessOK : SslSession := ⟨some [leafCert], some leafCert⟩

/-- The chain-link summary of `leafCert`. -/
def okChainLink : Chain :=
  { subject := "example.com"
  , issuer := "Test CA"
  , valid_from := "Jan  1 00:00:00 2020 GMT"
  , valid_to := "Jan 11 00:00:00 2020 GMT"
  , signature_algorithm := "sha256WithRSAEncryption" }

/-- The report `Certificate.fromSession 0 "example.com" sessOK` produces. -/
def okCert : Certificate :=
  { hostname := "example.com"
  , subject := { country_or_region := "None", state_or_province := "None"
               , locality := "None", organization_unit := "None"
               , organization := "None", common_name := "example.com" }
  , issued := { country_or_region := "None", organization := "None"
              , common_name := "Test CA" }
  , valid_from := "Jan  1 00:00:00 2020 GMT"
  , valid_to := "Jan 11 00:00:00 2020 GMT"
  , validity_days := 10
  , validity_hours := 240
  , is_expired := false
  , cert_sn := "12345"
  , cert_ver := "2"
  , cert_alg := "sha256WithRSAEncryption"
  , sans := ["example.com"]
  , chain := some [okChainLink] }

/-- `leafCert` with a SAN extension holding one DNS entry and one non-DNS
entry. -/
def c1cert : X509Cert :=
  { leafCert with subject_alt_names := some [⟨some "a.example.com"⟩, ipGeneralName] }

/-- `leafCert` with a serial number whose `to_bn()` conversion fails, so the
source's `.unwrap()` on it panics. -/
def c5cert : X509Cert := { leafCert with serial_number := none }

/-- A session presenting `c5cert`. -/
def sessC5 : SslSession := ⟨some [c5cert], some c5cert⟩

/-- A session whose peer chain is absent. -/
def sessNoChain : SslSession := ⟨none, some leafCert⟩

/-- A session whose leaf certificate is absent. -/
def sessNoLeaf : SslSession := ⟨some [], none⟩

/-- `leafCert` without a subject-alternative-names extension. -/
def noSanCert : X509Cert := { leafCert with subject_alt_names := none }

/-- The decoded fields of `noSanCert` (hostname and chain not yet filled
in by `Certificate::from`). -/
def noSanReport : Certificate :=
  { okCert with hostname := "None", sans := [], chain := none }

/-! ### Inversion helpers -/

/-- Sign of the truncating day division used by `get_validity_days`. -/
theorem tdiv_day_sign (a : Int) :
    (a.tdiv 86400 < 0 ↔ a ≤ -86400) ∧ (0 < a.tdiv 86400 ↔ 86400 ≤ a) := by
  rcases le_or_lt 0 a with ha | ha
  · have h1 := Int.tmod_add_tdiv a 86400
    have h2 := Int.tmod_lt_of_pos a (show (0:Int) < 86400 by norm_num)
    have h3 := Int.tmod_nonneg 86400 ha
    have h4 := Int.tdiv_nonneg ha (show (0:Int) ≤ 86400 by norm_num)
    omega
  · have he : a.tdiv 86400 = -((-a).tdiv 86400) := by
      rw [← Int.neg_tdiv, Int.neg_neg]
    have hn : (0:Int) ≤ -a := by omega
    have h1 := Int.tmod_add_tdiv (-a) 86400
    have h2 := Int.tmod_lt_of_pos (-a) (show (0:Int) < 86400 by norm_num)
    have h3 := Int.tmod_nonneg 86400 hn
    have h4 := Int.tdiv_nonneg hn (show (0:Int) ≤ 86400 by norm_num)
    omega

/-- Unfolding a successful `get_subject`. -/
theorem get_subject_inv (cert : X509Cert) (s : Subject)
    (h : get_subject cert = some s) :
    from_entries cert.subject_name.commonName = some s.common_name := by
  simp only [get_subject, Option.bind_eq_bind, Option.bind_eq_some,
    Option.some.injEq] at h
  obtain ⟨c1, h1, c2, h2, c3, h3, c4, h4, c5, h5, c6, h6, hfin⟩ := h
  rw [← hfin] at *
  exact h5

/-- Unfolding a successful `get_issuer`. -/
theorem get_issuer_inv (cert : X509Cert) (i : Issuer)
    (h : get_issuer cert = some i) :
    from_entries cert.issuer_name.commonName = some i.common_name := by
  simp only [get_issuer, Option.bind_eq_bind, Option.bind_eq_some,
    Option.some.injEq] at h
  obtain ⟨c1, h1, c2, h2, c3, h3, hfin⟩ := h
  rw [← hfin] at *
  exact h1

/-- Unfolding a successful `get_certificate_info` into its components. -/
theorem get_certificate_info_inv (now : Int) (cert : X509Cert) (c : Certificate)
    (h : get_certificate_info now cert = some c) :
    ∃ sans subject issued sn,
      sans_of cert.subject_alt_names = some sans ∧
      get_subject cert = some subject ∧
      get_issuer cert = some issued ∧
      cert.serial_number = some sn ∧
      c = { hostname := "None"
          , subject := subject
          , issued := issued
          , valid_from := cert.not_before.display
          , valid_to := cert.not_after.display
          , validity_days := get_validity_days now cert.not_after.secs
          , validity_hours := get_validity_in_hours now cert.not_after.secs
          , is_expired := has_expired now cert.not_after.secs
          , cert_sn := sn
          , cert_ver := toString cert.version
          , cert_alg := cert.signature_algorithm
          , sans := sans
          , chain := none } := by
  simp only [get_certificate_info, Option.bind_eq_bind, Option.bind_eq_some,
    Option.some.injEq] at h
  obtain ⟨sans, hs, subject, hsub, issued, hiss, sn, hsn, hfin⟩ := h
  exact ⟨sans, subject, issued, sn, hs, hsub, hiss, hsn, hfin.symm⟩

/-- Unfolding a successful `Certificate.fromSession` into its stages. -/
theorem fromSession_ok_inv (now : Int) (host : String) (sess : SslSession)
    (c : Certificate) (h : Certificate.fromSession now host sess = .ok c) :
    ∃ chainCerts links leaf data,
      sess.peer_cert_chain = some chainCerts ∧
      map_chain chainCerts = some links ∧
      sess.peer_certificate = some leaf ∧
      get_certificate_info now leaf = some data ∧
      c = { data with hostname := host, chain := some links } := by
  unfold Certificate.fromSession at h
  split at h
  · exact Outcome.noConfusion h
  next chainCerts hc =>
    split at h
    · exact Outcome.noConfusion h
    next links hm =>
      split at h
      · exact Outcome.noConfusion h
      next leaf hp =>
        split at h
        · exact Outcome.noConfusion h
        next data hg =>
          injection h with h2
          exact ⟨chainCerts, links, leaf, data, hc, hm, hp, hg, h2.symm⟩

/-- Unfolding a successful `chain_of_cert`. -/
theorem chain_of_cert_inv (c : X509Cert) (l : Chain)
    (h : chain_of_cert c = some l) :
    from_entries c.subject_name.commonName = some l.subject
  ∧ from_entries c.issuer_name.commonName = some l.issuer := by
  simp only [chain_of_cert, Option.bind_eq_bind, Option.bind_eq_some,
    Option.some.injEq] at h
  obtain ⟨s, hs, i, hi, hfin⟩ := h
  rw [← hfin]
  exact ⟨hs, hi⟩

/-- Unfolding a successful `map_chain` on a non-empty chain. -/
theorem map_chain_cons_inv (c : X509Cert) (cs : List X509Cert)
    (links : List Chain) (h : map_chain (c :: cs) = some links) :
    ∃ l ls, chain_of_cert c = some l ∧ map_chain cs = some ls ∧
      links = l :: ls := by
  unfold map_chain at h
  split at h
  · exact Option.noConfusion h
  next l hl =>
    split at h
    · exact Option.noConfusion h
    next ls hm =>
      injection h with h2
      exact ⟨l, ls, hl, hm, h2.symm⟩

/-- The report fields of a successful inspection, expressed through the leaf
certificate the session presented. -/
theorem fromSession_fields (now : Int) (host : String) (sess : SslSession)
    (leaf : X509Cert) (c : Certificate)
    (hleaf : sess.peer_certificate = some leaf)
    (hok : Certificate.fromSession now host sess = .ok c) :
    c.validity_days = get_validity_days now leaf.not_after.secs
  ∧ c.validity_hours = get_validity_in_hours now leaf.not_after.secs
  ∧ c.is_expired = has_expired now leaf.not_after.secs
  ∧ get_subject leaf = some c.subject
  ∧ get_issuer leaf = some c.issued
  ∧ sans_of leaf.subject_alt_names = some c.sans := by
  obtain ⟨cc, links, leaf', data, hcc, hm, hp, hg, hc⟩ :=
    fromSession_ok_inv now host sess c hok
  rw [hleaf] at hp
  injection hp with hpe
  subst hpe
  obtain ⟨sans, subject, issued, sn, hs, hsub, hiss, hsn, hd⟩ :=
    get_certificate_info_inv now leaf data hg
  subst hc
  subst hd
  exact ⟨rfl, rfl, rfl, hsub, hiss, hs⟩

/-! ### Claims -/

/-- C1, counterexample: a leaf certificate whose SAN extension holds one
DNS-name entry and one entry of another general-name type (`ipGeneralName`).
The claim says the non-DNS entry is silently skipped and the decoding
succeeds with exactly the DNS strings; in fact the collection aborts (the
`unwrap` of `dnsname()` panics), so `get_certificate_info` produces no
report at all. -/
theorem C1_counterexample :
    ipGeneralName.dnsname = none
  ∧ collect_sans [⟨some "a.example.com"⟩, ipGeneralName] = none
  ∧ get_certificate_info 0 c1cert = none := by decide

/-- C1, amended: iterating the SAN general-name entries collects the literal
DNS strings in order, and the whole collection succeeds exactly when every
entry is a DNS name; a single non-DNS entry makes the collection panic
(`none`) instead of being skipped. -/
theorem C1_san_collection (gns : List GeneralName) :
    (collect_sans gns = none ↔ ∃ g ∈ gns, g.dnsname = none)
  ∧ (∀ l, collect_sans gns = some l → l = gns.filterMap GeneralName.dnsname) := by
  induction gns with
  | nil =>
    refine ⟨by simp [collect_sans], ?_⟩
    intro l hl
    simp only [collect_sans, Option.some.injEq] at hl
    simp [← hl]
  | cons g gs ih =>
    cases hg : g.dnsname with
    | none =>
      refine ⟨?_, ?_⟩
      · simp only [collect_sans, hg, true_iff]
        exact ⟨g, List.mem_cons_self g gs, hg⟩
      · intro l hl
        simp [collect_sans, hg] at hl
    | some s =>
      cases hc : collect_sans gs with
      | none =>
        refine ⟨?_, ?_⟩
        · simp only [collect_sans, hg, hc, true_iff]
          obtain ⟨g', hmem, hnone⟩ := ih.1.mp hc
          exact ⟨g', List.mem_cons_of_mem g hmem, hnone⟩
        · intro l hl
          simp [collect_sans, hg, hc] at hl
      | some rest =>
        refine ⟨?_, ?_⟩
        · constructor
          · intro hfalse
            simp [collect_sans, hg, hc] at hfalse
          · rintro ⟨g', hmem, hnone⟩
            rcases List.mem_cons.mp hmem with hgg | hmem'
            · rw [← hgg] at hg
              rw [hnone] at hg
              exact Option.noConfusion hg
            · exact absurd (ih.1.mpr ⟨g', hmem', hnone⟩) (by simp [hc])
        · intro l hl
          simp only [collect_sans, hg, hc, Option.some.injEq] at hl
          rw [← hl, List.filterMap_cons_some hg, ih.2 rest hc]

/-- Witness for C1's amended theorem at a concrete all-DNS SAN list. -/
theorem C1_san_collection_witness :
    (["a.example.com", "b.example.com"] : List String) =
      [GeneralName.mk (some "a.example.com"),
       GeneralName.mk (some "b.example.com")].filterMap GeneralName.dnsname :=
  (C1_san_collection _).2 _ rfl

/-- C2: every successful inspection reports
`validity_hours = validity_days * 24` exactly, `validity_hours` being the
day-truncated difference scaled by 24. -/
theorem C2_validity_hours_eq (now : Int) (host : String) (sess : SslSession)
    (c : Certificate) (hok : Certificate.fromSession now host sess = .ok c) :
    c.validity_hours = c.validity_days * 24 := by
  obtain ⟨cc, links, leaf, data, hcc, hm, hp, hg, hc⟩ :=
    fromSession_ok_inv now host sess c hok
  obtain ⟨sans, subject, issued, sn, hs, hsub, hiss, hsn, hd⟩ :=
    get_certificate_info_inv now leaf data hg
  subst hc
  subst hd
  rfl

/-- Witness for C2 at the concrete session `sessOK`. -/
theorem C2_validity_hours_eq_witness :
    Certificate.fromSession 0 "example.com" sessOK = Outcome.ok okCert
  ∧ okCert.validity_hours = okCert.validity_days * 24 :=
  ⟨by decide, C2_validity_hours_eq 0 "example.com" sessOK okCert (by decide)⟩

/-- C3, counterexample: a certificate one second past expiry.  The claim says
`validity_days` is negative for every `valid_to` strictly in the past, but
the truncating day difference gives `0` when less than a whole day has
elapsed. -/
theorem C3_counterexample :
    (86399 : Int) < 86400 ∧ ¬ get_validity_days 86400 86399 < 0 := by decide

/-- C3, amended: for a successful inspection, `validity_days` is negative iff
`valid_to` is at least one whole day (86400 s) before the evaluation instant,
and positive iff `valid_to` is at least one whole day after it; within one
day on either side it is zero. -/
theorem C3_validity_days_sign (now : Int) (host : String) (sess : SslSession)
    (leaf : X509Cert) (c : Certificate)
    (hleaf : sess.peer_certificate = some leaf)
    (hok : Certificate.fromSession now host sess = .ok c) :
    (c.validity_days < 0 ↔ leaf.not_after.secs ≤ now - 86400)
  ∧ (0 < c.validity_days ↔ now + 86400 ≤ leaf.not_after.secs) := by
  rw [(fromSession_fields now host sess leaf c hleaf hok).1]
  have h := tdiv_day_sign (leaf.not_after.secs - now)
  unfold get_validity_days
  constructor
  · rw [h.1]; omega
  · rw [h.2]; omega

/-- Witness for C3's amended theorem at the concrete session `sessOK`
(`valid_to` ten days after the evaluation instant 0). -/
theorem C3_validity_days_sign_witness :
    (okCert.validity_days < 0 ↔ leafCert.not_after.secs ≤ 0 - 86400)
  ∧ (0 < okCert.validity_days ↔ 0 + 86400 ≤ leafCert.not_after.secs) :=
  C3_validity_days_sign 0 "example.com" sessOK leafCert okCert (by decide)
    (by decide)

/-- C4: the `is_expired` flag of a successful inspection is true iff the
leaf's `valid_to` instant is strictly before the evaluation instant of that
call; the flag is a pure function of the call's own evaluation instant
(nothing is cached across calls). -/
theorem C4_is_expired_iff (now : Int) (host : String) (sess : SslSession)
    (leaf : X509Cert) (c : Certificate)
    (hleaf : sess.peer_certificate = some leaf)
    (hok : Certificate.fromSession now host sess = .ok c) :
    c.is_expired = true ↔ leaf.not_after.secs < now := by
  rw [(fromSession_fields now host sess leaf c hleaf hok).2.2.1]
  unfold has_expired
  exact decide_eq_true_iff

/-- Witness for C4 at the concrete session `sessOK` (not yet expired). -/
theorem C4_is_expired_iff_witness :
    okCert.is_expired = true ↔ leafCert.not_after.secs < 0 :=
  C4_is_expired_iff 0 "example.com" sessOK leafCert okCert (by decide)
    (by decide)

/-- C5, counterexample: a leaf certificate whose serial number fails to
decode (`to_bn()` has no value to unwrap).  The claim says the inspection
returns a Decode error through `TLSValidationError` without crashing; in
fact the `.unwrap()` panics, so the outcome is a process abort, not an error
value. -/
theorem C5_counterexample :
    c5cert.serial_number = none
  ∧ Certificate.fromSession 0 "example.com" sessC5 = Outcome.panicked := by
  decide

/-- C5, amended: when a structurally mandatory certificate field fails to
decode — in a chain link or in the leaf — the inspection aborts by panicking
(no partial report), rather than returning a Decode error value. -/
theorem C5_decode_panics (now : Int) (host : String) (sess : SslSession) :
    (∀ l, sess.peer_cert_chain = some l → map_chain l = none →
       Certificate.fromSession now host sess = .panicked)
  ∧ (∀ l links leaf, sess.peer_cert_chain = some l →
       map_chain l = some links → sess.peer_certificate = some leaf →
       get_certificate_info now leaf = none →
       Certificate.fromSession now host sess = .panicked) := by
  constructor
  · intro l h1 h2
    simp only [Certificate.fromSession, h1, h2]
  · intro l links leaf h1 h2 h3 h4
    simp only [Certificate.fromSession, h1, h2, h3, h4]

/-- Witness for C5's amended theorem at the concrete session `sessC5`. -/
theorem C5_decode_panics_witness :
    Certificate.fromSession 0 "example.com" sessC5 = Outcome.panicked :=
  (C5_decode_panics 0 "example.com" sessC5).2 [c5cert] [okChainLink] c5cert
    rfl (by decide) rfl (by decide)

/-- C6: a distinguished-name attribute lookup returns the text of the first
matching entry when one is present, and the literal sentinel `"None"` when
no entry matches; absence is never a parse error. -/
theorem C6_dn_lookup (e : X509NameEntry) (rest : List X509NameEntry)
    (t : String) :
    from_entries [] = some "None"
  ∧ (e.text = some t → from_entries (e :: rest) = some t) :=
  ⟨rfl, fun h => h⟩

/-- Witness for C6 at a concrete present entry and a concrete absent one. -/
theorem C6_dn_lookup_witness :
    from_entries [] = some "None"
  ∧ from_entries [⟨some "US"⟩] = some "US" :=
  ⟨(C6_dn_lookup ⟨some "US"⟩ [] "US").1,
   (C6_dn_lookup ⟨some "US"⟩ [] "US").2 rfl⟩

/-- C7: when the session presents a non-empty chain headed by the leaf
certificate (OpenSSL's client-side guarantee) and the inspection succeeds,
the report's chain is present and non-empty, and the first link's subject
and issuer equal the leaf's own subject and issuer common names. -/
theorem C7_chain_first_link (now : Int) (host : String) (sess : SslSession)
    (leaf : X509Cert) (rest : List X509Cert) (c : Certificate)
    (hchain : sess.peer_cert_chain = some (leaf :: rest))
    (hleaf : sess.peer_certificate = some leaf)
    (hok : Certificate.fromSession now host sess = .ok c) :
    c.chain.getD [] ≠ []
  ∧ (c.chain.getD []).headI.subject = c.subject.common_name
  ∧ (c.chain.getD []).headI.issuer = c.issued.common_name := by
  obtain ⟨cc, links, leaf', data, hcc, hm, hp, hg, hc⟩ :=
    fromSession_ok_inv now host sess c hok
  rw [hchain] at hcc
  injection hcc with hcce
  subst hcce
  rw [hleaf] at hp
  injection hp with hpe
  subst hpe
  obtain ⟨l, ls, hl, hls, hlinks⟩ := map_chain_cons_inv _ _ _ hm
  obtain ⟨hsubl, hissl⟩ := chain_of_cert_inv _ _ hl
  obtain ⟨sans, subject, issued, sn, hs, hsub, hiss, hsn, hd⟩ :=
    get_certificate_info_inv now leaf data hg
  have hcn := get_subject_inv leaf subject hsub
  have hin := get_issuer_inv leaf issued hiss
  subst hc
  subst hd
  subst hlinks
  refine ⟨List.cons_ne_nil l ls, ?_, ?_⟩
  · exact (Option.some.inj (hcn.symm.trans hsubl)).symm
  · exact (Option.some.inj (hin.symm.trans hissl)).symm

/-- Witness for C7 at the concrete session `sessOK`. -/
theorem C7_chain_first_link_witness :
    okCert.chain.getD [] ≠ []
  ∧ (okCert.chain.getD []).headI.subject = okCert.subject.common_name
  ∧ (okCert.chain.getD []).headI.issuer = okCert.issued.common_name :=
  C7_chain_first_link 0 "example.com" sessOK leafCert [] okCert (by decide)
    (by decide) (by decide)

/-- C8: after the handshake, an absent peer chain fails with
`"Peer certificate chain not found"` and an absent leaf certificate fails
with `"Certificate not found"`; the two messages are distinct. -/
theorem C8_missing_data_errors (now : Int) (host : String) (sess : SslSession) :
    (sess.peer_cert_chain = none →
       Certificate.fromSession now host sess =
         .err "Peer certificate chain not found")
  ∧ (∀ l links, sess.peer_cert_chain = some l → map_chain l = some links →
       sess.peer_certificate = none →
       Certificate.fromSession now host sess = .err "Certificate not found")
  ∧ "Peer certificate chain not found" ≠ "Certificate not found" := by
  refine ⟨?_, ?_, by decide⟩
  · intro h
    simp only [Certificate.fromSession, h]
  · intro l links h1 h2 h3
    simp only [Certificate.fromSession, h1, h2, h3]

/-- Witness for C8 at the concrete sessions `sessNoChain` and `sessNoLeaf`. -/
theorem C8_missing_data_errors_witness :
    Certificate.fromSession 0 "example.com" sessNoChain =
      Outcome.err "Peer certificate chain not found"
  ∧ Certificate.fromSession 0 "example.com" sessNoLeaf =
      Outcome.err "Certificate not found" :=
  ⟨(C8_missing_data_errors 0 "example.com" sessNoChain).1 rfl,
   (C8_missing_data_errors 0 "example.com" sessNoLeaf).2.1 [] [] rfl rfl rfl⟩

/-- C9: a leaf certificate with no subject-alternative-names extension
decodes to an empty SAN list — the absence is not an error, and any report
produced for such a certificate carries `sans = []`. -/
theorem C9_no_san_extension (now : Int) (cert : X509Cert) (c : Certificate)
    (hno : cert.subject_alt_names = none) :
    sans_of cert.subject_alt_names = some []
  ∧ (get_certificate_info now cert = some c → c.sans = []) := by
  refine ⟨by rw [hno]; rfl, ?_⟩
  intro h
  obtain ⟨sans, subject, issued, sn, hs, hsub, hiss, hsn, hd⟩ :=
    get_certificate_info_inv now cert c h
  rw [hno] at hs
  simp only [sans_of, Option.some.injEq] at hs
  subst hd
  exact hs.symm

/-- Witness for C9 at the concrete certificate `noSanCert`. -/
theorem C9_no_san_extension_witness : noSanReport.sans = [] :=
  (C9_no_san_extension 0 noSanCert noSanReport rfl).2 (by decide)

/-- C10: every successful inspection carries a present chain: `chain` is
`Some`, never `None`, because chain retrieval is attempted before the report
is assembled and its failure aborts the inspection. -/
theorem C10_chain_present (now : Int) (host : String) (sess : SslSession)
    (c : Certificate) (hok : Certificate.fromSession now host sess = .ok c) :
    c.chain.isSome = true := by
  obtain ⟨cc, links, leaf, data, hcc, hm, hp, hg, hc⟩ :=
    fromSession_ok_inv now host sess c hok
  subst hc
  rfl

/-- Witness for C10 at the concrete session `sessOK`. -/
theorem C10_chain_present_witness : okCert.chain.isSome = true :=
  C10_chain_present 0 "example.com" sessOK okCert (by decide)

end TLSChecker
